import Mathlib

/-!
Shallow embedding of `src/lambda_function.py` (a serverless Reddit-sentiment
ETL pipeline).  The handler's external collaborators (secret store, Reddit
API, VADER scorer, system clock, DynamoDB table store) are supplied through
an explicit environment `Env`, and the handler's observable side effects
(secret fetch, log lines printed, post fetch, per-item puts) are returned as
an ordered trace of `Effect`s alongside the Python-level result
(`Except PyError Response`, an uncaught exception or the returned dict).
-/

/-- Configuration constant from line 18 of the source. -/
def REGION_NAME : String := "eu-west-3"

/-- Configuration constant from line 19 of the source. -/
def SECRET_NAME : String := "RedditPRAWCredentials"

/-- Configuration constant from line 20 of the source. -/
def TABLE_NAME : String := "SentimentObserverResults"

/-- Configuration constant from line 51 of the source (`SUBREDDIT_NAME = "valencia"`). -/
def SUBREDDIT_NAME : String := "valencia"

/-- Configuration constant from line 52 of the source (`LIMIT_POSTS = 50`). -/
def LIMIT_POSTS : Nat := 50

/-- A post as exposed by the content API: at least an id and a title
(`post.id`, `post.title` in the source). -/
structure Post where
  id : String
  title : String
deriving DecidableEq

/-- A Python IEEE-754 double, modelled by the exact rational value of its
bits (`binVal`, what `Decimal(x)` — the direct binary-to-decimal cast —
would expose) together with its `str()`/`repr()` form (`repr`, the shortest
decimal literal that round-trips, e.g. `"0.1"`). -/
structure PyFloat where
  binVal : ℚ
  repr : String
deriving DecidableEq

/-- The Python value stored under the `SentimentScore` key of a result dict:
a binary float when the Result Builder creates it (line 68), a `Decimal`
after the Batch Persister's in-place conversion (line 80). -/
inductive ScoreAttr where
  | float (f : PyFloat)
  | dec (q : ℚ)
deriving DecidableEq

/-- One result dict as appended to `processed_results` (lines 63-71). -/
structure Item where
  SubredditName : String
  Timestamp : String
  PostID : String
  Title : String
  SentimentScore : ScoreAttr
  SentimentLabel : String
deriving DecidableEq

/-- Python exceptions that can escape the handler. -/
inductive PyError where
  | clientError (msg : String)
  | keyError (key : String)
  | typeError
  | valueError (msg : String)
  | invalidOperation
deriving DecidableEq

/-- A parsed JSON value (result of `json.loads` on the secret string). -/
inductive Json where
  | str (s : String)
  | num (q : ℚ)
  | bool (b : Bool)
  | null
  | obj (fields : List (String × Json))

/-- Observable side effects of one invocation, in program order. -/
inductive Effect where
  | getSecretValue (secretId : String)
  | log (msg : String)
  | fetchPosts (subreddit : String) (limit : Nat)
  | putItem (item : Item)
deriving DecidableEq

/-- The dict returned by the handler on success (lines 93-97). -/
structure Response where
  statusCode : Nat
  body : String
deriving DecidableEq

/-- Environment: the behaviour of every external collaborator during one
invocation.  `secretResult` is the joint outcome of
`get_secret_value`/`['SecretString']` (a `ClientError` message on failure)
and of `json.loads` on the retrieved string (a `ValueError` message or the
parsed value).  `posts` is the sequence yielded by `subreddit.hot`,
`polarity` the VADER compound score of a title, `clock` the successive
values of `datetime.datetime.now().isoformat()` (indexed by call count),
and `putOutcome i` the table store's reaction to the i-th `put_item`
(`some msg` = it raises a `ClientError` with that message). -/
structure Env where
  secretResult : Except String (Except String Json)
  posts : List Post
  polarity : String → PyFloat
  clock : Nat → String
  putOutcome : Nat → Option String

/-- Value of a decimal digit character. -/
def digitVal (c : Char) : Option Nat :=
  if c.isDigit then some (c.toNat - 48) else none

/-- Value of a non-empty all-digit string of characters. -/
def parseNatDigits (cs : List Char) : Option Nat :=
  if cs.isEmpty then none
  else cs.foldl (fun acc c => acc.bind (fun a => (digitVal c).map (fun d => a * 10 + d))) (some 0)

/-- Exact rational value of a plain decimal literal, as `Decimal(s)` parses
it: optional leading minus, integer digits, optional fraction digits.  This
covers every string `str()` produces for the floats this pipeline handles
(VADER compounds, whose reprs are plain decimals); other strings yield
`none`, modelling `decimal.InvalidOperation`. -/
def parseDecimal (s : String) : Option ℚ :=
  let cs := s.toList
  let signed : Bool × List Char :=
    match cs with
    | '-' :: rest => (true, rest)
    | _ => (false, cs)
  let intPart := signed.2.takeWhile (fun c => c ≠ '.')
  let rest := signed.2.dropWhile (fun c => c ≠ '.')
  match rest with
  | [] => (parseNatDigits intPart).map (fun n =>
      mkRat (if signed.1 then -(n : Int) else (n : Int)) 1)
  | _ :: frac =>
    (parseNatDigits intPart).bind (fun n =>
      (parseNatDigits frac).map (fun f =>
        let scaled : Int := (n : Int) * (10 : Int) ^ frac.length + (f : Int)
        mkRat (if signed.1 then -scaled else scaled) ((10 : Nat) ^ frac.length)))

/-- `Decimal(s)`: exact decimal value of the string, or `InvalidOperation`. -/
def pyDecimalOfString (s : String) : Except PyError ℚ :=
  match parseDecimal s with
  | some q => Except.ok q
  | none => Except.error PyError.invalidOperation

/-- `Decimal(x)` applied directly to a float: the exact binary value, with
all binary rounding artifacts (the cast the source deliberately avoids). -/
def pyDecimalOfFloatDirect (f : PyFloat) : ℚ := f.binVal

/-- Lines 69-70: `'Positive' if score['compound'] >= 0.05 else ('Negative'
if score['compound'] <= -0.05 else 'Neutral')`, on the exact value of the
compound score. -/
def sentimentLabel (compound : ℚ) : String :=
  if compound ≥ mkRat 5 100 then "Positive"
  else if compound ≤ mkRat (-5) 100 then "Negative"
  else "Neutral"

/-- Lines 63-71: the dict built for one post (the Result Builder). -/
def buildItem (subreddit ts : String) (p : Post) (score : PyFloat) : Item :=
  { SubredditName := subreddit
    Timestamp := ts
    PostID := p.id
    Title := p.title
    SentimentScore := ScoreAttr.float score
    SentimentLabel := sentimentLabel score.binVal }

/-- Lines 57-73: the `for post in posts` loop.  `i` is the number of posts
already processed (`len(processed_results)` before the append; the clock
index of this post's `datetime.datetime.now()` call).  Returns the built
`processed_results` list and the trace of log lines. -/
def processPosts : List Post → Nat → (String → PyFloat) → (Nat → String) → List Item × List Effect
  | [], _, _, _ => ([], [])
  | p :: rest, i, pol, clk =>
    (buildItem SUBREDDIT_NAME (clk i) p (pol p.title) :: (processPosts rest (i + 1) pol clk).1,
     Effect.log ("Posts procesados y listos para carga: " ++ toString (i + 1))
       :: (processPosts rest (i + 1) pol clk).2)

/-- Line 80: `Decimal(str(item['SentimentScore']))`.  On a float this goes
through the repr string; on a value that is already a `Decimal`,
`Decimal(str(d))` round-trips it exactly. -/
def convertScore : ScoreAttr → Except PyError ScoreAttr
  | ScoreAttr.float f => (pyDecimalOfString f.repr).map ScoreAttr.dec
  | ScoreAttr.dec q => Except.ok (ScoreAttr.dec q)

/-- Lines 77-81: the batch-writer loop.  Each iteration mutates the dict's
`SentimentScore` in place (line 80) and calls `put_item`; `po i` decides
whether the store fails the i-th put with a `ClientError`.  Returns the
final contents of `processed_results` (the mutated dicts) on success, or
the first exception, together with the trace of attempted puts. -/
def persistItems (po : Nat → Option String) : List Item → Nat → Except PyError (List Item) × List Effect
  | [], _ => (Except.ok [], [])
  | item :: rest, i =>
    match convertScore item.SentimentScore with
    | Except.error e => (Except.error e, [])
    | Except.ok sc =>
      match po i with
      | some m =>
        (Except.error (PyError.clientError m),
         [Effect.putItem { item with SentimentScore := sc }])
      | none =>
        ((persistItems po rest (i + 1)).1.map (fun xs => { item with SentimentScore := sc } :: xs),
         Effect.putItem { item with SentimentScore := sc } :: (persistItems po rest (i + 1)).2)

/-- Lines 22-32: `get_secret`.  A `ClientError` from the secret store is
logged and re-raised; a `json.loads` failure propagates uncaught. -/
def get_secret (env : Env) : Except PyError Json × List Effect :=
  match env.secretResult with
  | Except.error e =>
    (Except.error (PyError.clientError e),
     [Effect.getSecretValue SECRET_NAME,
      Effect.log ("Error: No se pudo obtener el secreto " ++ SECRET_NAME ++ ".")])
  | Except.ok (Except.error m) =>
    (Except.error (PyError.valueError m), [Effect.getSecretValue SECRET_NAME])
  | Except.ok (Except.ok j) =>
    (Except.ok j, [Effect.getSecretValue SECRET_NAME])

/-- Python dict subscription `j[key]`: `KeyError` when the key is absent,
`TypeError` when the subscripted JSON value is not an object. -/
def dictGet (j : Json) (key : String) : Except PyError Json :=
  match j with
  | Json.obj fields =>
    match fields.lookup key with
    | some v => Except.ok v
    | none => Except.error (PyError.keyError key)
  | _ => Except.error PyError.typeError

/-- The fixed status message of line 96. -/
def SUCCESS_STATUS : String :=
  "Pipeline executed successfully and data loaded to DynamoDB and S3!"

/-- Line 96: `json.dumps({'posts_count': n, 'status': SUCCESS_STATUS})` with
Python's default separators. -/
def successBody (n : Nat) : String :=
  "\x7b\"posts_count\": " ++ toString n ++ ", \"status\": \"" ++ SUCCESS_STATUS ++ "\"\x7d"

/-- Lines 34-96: `lambda_handler(event, context)`.  `event` and `context`
are accepted and never used.  The pipeline: get credentials (line 41),
subscript them for `client_id`/`client_secret` (lines 45-46), fetch posts
(line 55), score and build records (lines 60-73), batch-persist with the
in-place decimal conversion (lines 76-88, `ClientError` logged and
re-raised, anything else uncaught), and format the success response
(lines 90-97). -/
def lambda_handler {α β : Type} (event : α) (context : β) (env : Env) :
    Except PyError Response × List Effect :=
  match get_secret env with
  | (Except.error e, tr) => (Except.error e, tr)
  | (Except.ok creds, tr) =>
    match dictGet creds "client_id" with
    | Except.error e => (Except.error e, tr)
    | Except.ok _ =>
      match dictGet creds "client_secret" with
      | Except.error e => (Except.error e, tr)
      | Except.ok _ =>
        match persistItems env.putOutcome (processPosts env.posts 0 env.polarity env.clock).1 0 with
        | (Except.error (PyError.clientError m), ptr) =>
          (Except.error (PyError.clientError m),
           tr ++ [Effect.fetchPosts SUBREDDIT_NAME LIMIT_POSTS]
              ++ (processPosts env.posts 0 env.polarity env.clock).2 ++ ptr
              ++ [Effect.log ("ERROR: Fallo al escribir en DynamoDB. " ++ m)])
        | (Except.error e, ptr) =>
          (Except.error e,
           tr ++ [Effect.fetchPosts SUBREDDIT_NAME LIMIT_POSTS]
              ++ (processPosts env.posts 0 env.polarity env.clock).2 ++ ptr)
        | (Except.ok finalItems, ptr) =>
          (Except.ok { statusCode := 200, body := successBody finalItems.length },
           tr ++ [Effect.fetchPosts SUBREDDIT_NAME LIMIT_POSTS]
              ++ (processPosts env.posts 0 env.polarity env.clock).2 ++ ptr
              ++ [Effect.log ("Carga exitosa a DynamoDB: " ++ toString finalItems.length
                    ++ " elementos.")])

/-! ## Helper lemmas about the pipeline stages -/

theorem mkRat_five_hundredths : (mkRat 5 100 : ℚ) = 5/100 := by
  rw [Rat.mkRat_eq_div]; norm_num

theorem mkRat_neg_five_hundredths : (mkRat (-5) 100 : ℚ) = -(5/100) := by
  rw [Rat.mkRat_eq_div]; push_cast; ring

theorem processPosts_length (ps : List Post) (i0 : Nat) (pol : String → PyFloat)
    (clk : Nat → String) : (processPosts ps i0 pol clk).1.length = ps.length := by
  induction ps generalizing i0 with
  | nil => rfl
  | cons p rest ih => simp [processPosts, ih]

theorem processPosts_get (ps : List Post) (pol : String → PyFloat) (clk : Nat → String) :
    ∀ (i0 i : Nat) (h : i < ps.length) (h2 : i < (processPosts ps i0 pol clk).1.length),
      (processPosts ps i0 pol clk).1.get ⟨i, h2⟩ =
        buildItem SUBREDDIT_NAME (clk (i0 + i)) (ps.get ⟨i, h⟩) (pol ((ps.get ⟨i, h⟩).title)) := by
  induction ps with
  | nil => intro i0 i h h2; exact absurd h (by simp)
  | cons p rest ih =>
    intro i0 i h h2
    cases i with
    | zero => simp [processPosts]
    | succ k =>
      have hk : k < rest.length := by simpa using h
      have hk2 : k < (processPosts rest (i0 + 1) pol clk).1.length := by
        rw [processPosts_length]; exact hk
      have step : (processPosts (p :: rest) i0 pol clk).1.get ⟨k + 1, h2⟩ =
          (processPosts rest (i0 + 1) pol clk).1.get ⟨k, hk2⟩ := by
        simp [processPosts]
      rw [step, ih (i0 + 1) k hk hk2]
      have harith : i0 + 1 + k = i0 + (k + 1) := by omega
      rw [harith]
      rfl

theorem persistItems_ok (po : Nat → Option String) :
    ∀ (items : List Item) (i0 : Nat) (out : List Item) (tr : List Effect),
      persistItems po items i0 = (Except.ok out, tr) →
      out.length = items.length ∧
      ∀ (i : Nat) (hi : i < items.length) (hi2 : i < out.length),
        ∃ sc, convertScore ((items.get ⟨i, hi⟩).SentimentScore) = Except.ok sc ∧
          out.get ⟨i, hi2⟩ = { items.get ⟨i, hi⟩ with SentimentScore := sc } := by
  intro items
  induction items with
  | nil =>
    intro i0 out tr h
    simp only [persistItems, Prod.mk.injEq, Except.ok.injEq] at h
    obtain ⟨h1, -⟩ := h
    subst h1
    exact ⟨rfl, fun i hi hi2 => absurd hi (by simp)⟩
  | cons item rest ih =>
    intro i0 out tr h
    simp only [persistItems] at h
    rcases hc : convertScore item.SentimentScore with e | sc
    · rw [hc] at h; simp at h
    · rw [hc] at h
      rcases hp : po i0 with _ | m
      · rw [hp] at h
        rcases hr : persistItems po rest (i0 + 1) with ⟨r, rtr⟩
        rw [hr] at h
        cases r with
        | error e => simp [Except.map] at h
        | ok out2 =>
          simp only [Except.map, Prod.mk.injEq, Except.ok.injEq] at h
          obtain ⟨hout, -⟩ := h
          subst hout
          obtain ⟨ihlen, ihget⟩ := ih (i0 + 1) out2 rtr hr
          constructor
          · simp [ihlen]
          · intro i hi hi2
            cases i with
            | zero => exact ⟨sc, hc, rfl⟩
            | succ k =>
              have hk : k < rest.length := by simpa using hi
              have hk2 : k < out2.length := by rw [ihlen]; exact hk
              obtain ⟨sc2, hsc2, hget2⟩ := ihget k hk hk2
              exact ⟨sc2, hsc2, hget2⟩
      · rw [hp] at h; simp at h

/-! ## Claim C1 -/

/-- Claim C1: for every compound score `s`, the assigned SentimentLabel is
`"Positive"` iff `s ≥ 0.05`, `"Negative"` iff `s ≤ -0.05`, and `"Neutral"`
iff `-0.05 < s < 0.05`; in particular the boundaries are inclusive:
`0.05 → Positive`, `-0.05 → Negative`, `0 → Neutral`. -/
theorem claim_C1_label_thresholds :
    (∀ s : ℚ,
      (sentimentLabel s = "Positive" ↔ 5/100 ≤ s) ∧
      (sentimentLabel s = "Negative" ↔ s ≤ -(5/100)) ∧
      (sentimentLabel s = "Neutral" ↔ (-(5/100) < s ∧ s < 5/100))) ∧
    sentimentLabel (5/100) = "Positive" ∧
    sentimentLabel (-(5/100)) = "Negative" ∧
    sentimentLabel 0 = "Neutral" := by
  have hmain : ∀ s : ℚ,
      (sentimentLabel s = "Positive" ↔ 5/100 ≤ s) ∧
      (sentimentLabel s = "Negative" ↔ s ≤ -(5/100)) ∧
      (sentimentLabel s = "Neutral" ↔ (-(5/100) < s ∧ s < 5/100)) := by
    intro s
    simp only [sentimentLabel, ge_iff_le, mkRat_five_hundredths, mkRat_neg_five_hundredths]
    split_ifs with h1 h2
    · refine ⟨by simp [h1], ⟨fun hh => absurd hh (by decide), fun hh => ?_⟩,
        ⟨fun hh => absurd hh (by decide), fun hh => ?_⟩⟩
      · exact absurd h1 (by intro hc; linarith)
      · exact absurd h1 (by intro hc; linarith [hh.2])
    · refine ⟨⟨fun hh => absurd hh (by decide), fun hh => absurd hh h1⟩,
        ⟨fun _ => h2, fun _ => rfl⟩,
        ⟨fun hh => absurd hh (by decide), fun hh => ?_⟩⟩
      exact absurd h2 (by intro hc; linarith [hh.1])
    · push_neg at h1 h2
      exact ⟨⟨fun hh => absurd hh (by decide), fun hh => absurd hh (not_le.mpr h1)⟩,
        ⟨fun hh => absurd hh (by decide), fun hh => absurd hh (not_le.mpr h2)⟩,
        ⟨fun _ => ⟨h2, h1⟩, fun _ => rfl⟩⟩
  refine ⟨hmain, ?_, ?_, ?_⟩
  · exact ((hmain (5/100)).1).mpr le_rfl
  · exact ((hmain (-(5/100))).2.1).mpr le_rfl
  · exact ((hmain 0).2.2).mpr (by norm_num)

/-! ## Claims C4, C10, C5, C3, C9 -/

/-- Claim C4: if secret retrieval fails, the error is logged and re-raised
as a `ClientError` and the invocation aborts with a trace containing only
the secret-store call and the log line: no post fetch and no table write is
ever attempted (credential loading strictly precedes fetching). -/
theorem claim_C4_secret_failure_aborts (env : Env) {α β : Type} (event : α) (context : β)
    (m : String) (h : env.secretResult = Except.error m) :
    lambda_handler event context env =
      (Except.error (PyError.clientError m),
       [Effect.getSecretValue SECRET_NAME,
        Effect.log ("Error: No se pudo obtener el secreto " ++ SECRET_NAME ++ ".")]) ∧
    (∀ sub lim, Effect.fetchPosts sub lim ∉ (lambda_handler event context env).2) ∧
    (∀ it, Effect.putItem it ∉ (lambda_handler event context env).2) := by
  have hmain : lambda_handler event context env =
      (Except.error (PyError.clientError m),
       [Effect.getSecretValue SECRET_NAME,
        Effect.log ("Error: No se pudo obtener el secreto " ++ SECRET_NAME ++ ".")]) := by
    simp only [lambda_handler, get_secret, h]
  refine ⟨hmain, ?_, ?_⟩
  · intro sub lim
    rw [hmain]
    simp
  · intro it
    rw [hmain]
    simp

/-- Claim C10: if the retrieved secret payload parses as a JSON object but
lacks the `client_id` or `client_secret` key, the handler raises an uncaught
`KeyError` after the secret-store call succeeds; the trace contains the
secret fetch and nothing else — no log line, no post fetch, no write. -/
theorem claim_C10_missing_credential_key (env : Env) {α β : Type} (event : α) (context : β)
    (fl : List (String × Json))
    (h : env.secretResult = Except.ok (Except.ok (Json.obj fl)))
    (hk : fl.lookup "client_id" = none ∨ fl.lookup "client_secret" = none) :
    ((lambda_handler event context env).1 = Except.error (PyError.keyError "client_id") ∨
     (lambda_handler event context env).1 = Except.error (PyError.keyError "client_secret")) ∧
    (lambda_handler event context env).2 = [Effect.getSecretValue SECRET_NAME] := by
  rcases hid : fl.lookup "client_id" with _ | v1
  · have hmain : lambda_handler event context env =
        (Except.error (PyError.keyError "client_id"), [Effect.getSecretValue SECRET_NAME]) := by
      simp only [lambda_handler, get_secret, h, dictGet, hid]
    rw [hmain]
    exact ⟨Or.inl rfl, rfl⟩
  · have hsec : fl.lookup "client_secret" = none := by
      rcases hk with hk | hk
      · rw [hid] at hk; cases hk
      · exact hk
    have hmain : lambda_handler event context env =
        (Except.error (PyError.keyError "client_secret"), [Effect.getSecretValue SECRET_NAME]) := by
      simp only [lambda_handler, get_secret, h, dictGet, hid, hsec]
    rw [hmain]
    exact ⟨Or.inr rfl, rfl⟩

/-- Claim C5: when the fetch yields 0 posts, no put operation occurs (the
batch is empty) and the handler returns status 200 with a body reporting
`posts_count: 0`. -/
theorem claim_C5_zero_posts (env : Env) {α β : Type} (event : α) (context : β)
    (fl : List (String × Json)) (v1 v2 : Json)
    (h1 : env.secretResult = Except.ok (Except.ok (Json.obj fl)))
    (h2 : fl.lookup "client_id" = some v1)
    (h3 : fl.lookup "client_secret" = some v2)
    (h0 : env.posts = []) :
    lambda_handler event context env =
      (Except.ok { statusCode := 200, body := successBody 0 },
       [Effect.getSecretValue SECRET_NAME,
        Effect.fetchPosts SUBREDDIT_NAME LIMIT_POSTS,
        Effect.log ("Carga exitosa a DynamoDB: " ++ toString 0 ++ " elementos.")]) ∧
    (∀ it, Effect.putItem it ∉ (lambda_handler event context env).2) := by
  have hmain : lambda_handler event context env =
      (Except.ok { statusCode := 200, body := successBody 0 },
       [Effect.getSecretValue SECRET_NAME,
        Effect.fetchPosts SUBREDDIT_NAME LIMIT_POSTS,
        Effect.log ("Carga exitosa a DynamoDB: " ++ toString 0 ++ " elementos.")]) := by
    simp only [lambda_handler, get_secret, h1, dictGet, h2, h3, h0, processPosts, persistItems]
    simp
  refine ⟨hmain, ?_⟩
  intro it
  rw [hmain]
  simp

/-- Claim C3: if the table store fails a batch write, the resulting
`ClientError` is logged and then re-raised: the handler's result is that
error (response formatting is never reached — the handler never returns an
`Except.ok` response), and the trace ends with the error log line. -/
theorem claim_C3_persistence_failure (env : Env) {α β : Type} (event : α) (context : β)
    (fl : List (String × Json)) (v1 v2 : Json) (m : String) (ptr : List Effect)
    (h1 : env.secretResult = Except.ok (Except.ok (Json.obj fl)))
    (h2 : fl.lookup "client_id" = some v1)
    (h3 : fl.lookup "client_secret" = some v2)
    (h4 : persistItems env.putOutcome (processPosts env.posts 0 env.polarity env.clock).1 0
            = (Except.error (PyError.clientError m), ptr)) :
    lambda_handler event context env =
      (Except.error (PyError.clientError m),
       [Effect.getSecretValue SECRET_NAME, Effect.fetchPosts SUBREDDIT_NAME LIMIT_POSTS]
         ++ (processPosts env.posts 0 env.polarity env.clock).2 ++ ptr
         ++ [Effect.log ("ERROR: Fallo al escribir en DynamoDB. " ++ m)]) ∧
    (∀ (resp : Response) (tr : List Effect),
      lambda_handler event context env ≠ (Except.ok resp, tr)) := by
  have hmain : lambda_handler event context env =
      (Except.error (PyError.clientError m),
       [Effect.getSecretValue SECRET_NAME, Effect.fetchPosts SUBREDDIT_NAME LIMIT_POSTS]
         ++ (processPosts env.posts 0 env.polarity env.clock).2 ++ ptr
         ++ [Effect.log ("ERROR: Fallo al escribir en DynamoDB. " ++ m)]) := by
    simp only [lambda_handler, get_secret, h1, dictGet, h2, h3, h4]
    simp [List.append_assoc]
  refine ⟨hmain, ?_⟩
  intro resp tr hne
  rw [hmain] at hne
  simp at hne

/-- Claim C9: the event payload and the context argument are dead inputs:
with the same environment (secret store, content API, clock, table store),
any two invocations — whatever their event and context values, even of
different types — produce the identical result and identical effect trace. -/
theorem claim_C9_event_context_unused {α β γ δ : Type} (event1 : α) (context1 : β)
    (event2 : γ) (context2 : δ) (env : Env) :
    lambda_handler event1 context1 env = lambda_handler event2 context2 env := rfl

/-! ## Claims C8 and C2 -/

/-- Claim C8: every successful invocation returns a structured response with
integer status code 200 and a string body that is exactly the JSON dump of
an object with the integer field `posts_count` — equal to the number of
processed records, i.e. the number of fetched posts — and the fixed string
field `status`. -/
theorem claim_C8_success_response_shape (env : Env) {α β : Type} (event : α) (context : β)
    (resp : Response) (tr : List Effect)
    (h : lambda_handler event context env = (Except.ok resp, tr)) :
    resp.statusCode = 200 ∧
    resp.body = successBody env.posts.length ∧
    successBody env.posts.length =
      "\x7b\"posts_count\": " ++ toString env.posts.length ++ ", \"status\": \""
        ++ SUCCESS_STATUS ++ "\"\x7d" := by
  rcases hg : env.secretResult with m | jr
  · simp only [lambda_handler, get_secret, hg] at h
    simp at h
  rcases jr with m | j
  · simp only [lambda_handler, get_secret, hg] at h
    simp at h
  rcases hid : dictGet j "client_id" with e | v1
  · simp only [lambda_handler, get_secret, hg, hid] at h
    simp at h
  rcases hsec : dictGet j "client_secret" with e | v2
  · simp only [lambda_handler, get_secret, hg, hid, hsec] at h
    simp at h
  rcases hp : persistItems env.putOutcome (processPosts env.posts 0 env.polarity env.clock).1 0
    with ⟨r, ptr⟩
  rcases r with e | finalItems
  · cases e <;> simp only [lambda_handler, get_secret, hg, hid, hsec, hp] at h <;> simp at h
  · simp only [lambda_handler, get_secret, hg, hid, hsec, hp, Prod.mk.injEq,
      Except.ok.injEq] at h
    obtain ⟨hresp, -⟩ := h
    obtain ⟨hlen, -⟩ := persistItems_ok env.putOutcome _ 0 finalItems ptr hp
    rw [processPosts_length] at hlen
    rw [← hresp]
    exact ⟨rfl, by rw [hlen], rfl⟩

/-- Claim C2: every record the Batch Persister writes carries a
SentimentScore obtained by taking the float's string representation and
parsing that string as an exact decimal — e.g. a score printing as `"0.1"`
is stored as the exact decimal 1/10 — never by casting the binary float
value directly. -/
theorem claim_C2_score_stored_via_string (env : Env) (out : List Item) (ptr : List Effect)
    (h : persistItems env.putOutcome (processPosts env.posts 0 env.polarity env.clock).1 0
           = (Except.ok out, ptr)) :
    out.length = env.posts.length ∧
    ∀ (i : Nat) (hi : i < env.posts.length) (hi2 : i < out.length),
      ∃ q : ℚ,
        parseDecimal ((env.polarity ((env.posts.get ⟨i, hi⟩).title)).repr) = some q ∧
        (out.get ⟨i, hi2⟩).SentimentScore = ScoreAttr.dec q := by
  obtain ⟨hlen, hget⟩ := persistItems_ok env.putOutcome _ 0 out ptr h
  have hplen := processPosts_length env.posts 0 env.polarity env.clock
  refine ⟨by rw [hlen, hplen], ?_⟩
  intro i hi hi2
  have hi' : i < (processPosts env.posts 0 env.polarity env.clock).1.length := by
    rw [hplen]; exact hi
  obtain ⟨sc, hsc, hout⟩ := hget i hi' hi2
  rw [processPosts_get env.posts env.polarity env.clock 0 i hi hi'] at hsc hout
  simp only [buildItem] at hsc hout
  rcases hq : parseDecimal ((env.polarity ((env.posts.get ⟨i, hi⟩).title)).repr) with _ | q
  · rw [convertScore, pyDecimalOfString, hq] at hsc
    simp [Except.map] at hsc
  · refine ⟨q, rfl, ?_⟩
    rw [convertScore, pyDecimalOfString, hq] at hsc
    simp only [Except.map, Except.ok.injEq] at hsc
    rw [hout, ← hsc]

/-! ## Claims C6 and C7 -/

/-- Claim C6: when the fetch yields 50 posts (and the clock is strictly
increasing across successive `now()` calls, as its microsecond resolution
makes it in practice), exactly 50 records are built, all with
`SubredditName = "valencia"`; each record's Timestamp is the clock value of
its own per-post `now()` call (record i gets clock call i, not a shared
batch-start value), and the timestamps are strictly increasing in build
order — in particular pairwise distinct and monotonically non-decreasing. -/
theorem claim_C6_fifty_records (env : Env)
    (h50 : env.posts.length = 50)
    (hclk : ∀ j, j < env.posts.length → ∀ i, i < j → env.clock i < env.clock j) :
    (processPosts env.posts 0 env.polarity env.clock).1.length = 50 ∧
    (∀ it ∈ (processPosts env.posts 0 env.polarity env.clock).1,
      it.SubredditName = SUBREDDIT_NAME) ∧
    (∀ (i : Nat) (hi : i < (processPosts env.posts 0 env.polarity env.clock).1.length),
      ((processPosts env.posts 0 env.polarity env.clock).1.get ⟨i, hi⟩).Timestamp
        = env.clock i) ∧
    (∀ (i j : Nat) (hi : i < (processPosts env.posts 0 env.polarity env.clock).1.length)
      (hj : j < (processPosts env.posts 0 env.polarity env.clock).1.length), i < j →
      ((processPosts env.posts 0 env.polarity env.clock).1.get ⟨i, hi⟩).Timestamp
          < ((processPosts env.posts 0 env.polarity env.clock).1.get ⟨j, hj⟩).Timestamp ∧
        ((processPosts env.posts 0 env.polarity env.clock).1.get ⟨i, hi⟩).Timestamp
          ≠ ((processPosts env.posts 0 env.polarity env.clock).1.get ⟨j, hj⟩).Timestamp) := by
  have hplen := processPosts_length env.posts 0 env.polarity env.clock
  have hts : ∀ (i : Nat) (hi : i < (processPosts env.posts 0 env.polarity env.clock).1.length),
      ((processPosts env.posts 0 env.polarity env.clock).1.get ⟨i, hi⟩).Timestamp
        = env.clock i := by
    intro i hi
    have hi' : i < env.posts.length := by rw [← hplen]; exact hi
    rw [processPosts_get env.posts env.polarity env.clock 0 i hi' hi]
    simp [buildItem]
  refine ⟨by rw [hplen, h50], ?_, hts, ?_⟩
  · intro it hit
    obtain ⟨⟨i, hi⟩, hgeti⟩ := List.mem_iff_get.mp hit
    have hi' : i < env.posts.length := by rw [← hplen]; exact hi
    rw [← hgeti, processPosts_get env.posts env.polarity env.clock 0 i hi' hi]
    rfl
  · intro i j hi hj hij
    have hj' : j < env.posts.length := by rw [← hplen]; exact hj
    have hlt := hclk j hj' i hij
    rw [hts i hi, hts j hj]
    exact ⟨hlt, ne_of_lt hlt⟩

def posts50 : List Post := (List.range 50).map (fun n => { id := toString n, title := "title" })

def envC6 : Env :=
  { secretResult := Except.ok (Except.ok (Json.obj
      [("client_id", Json.str "a"), ("client_secret", Json.str "b")]))
    posts := posts50
    polarity := fun _ => { binVal := mkRat 0 1, repr := "0.0" }
    clock := fun n => toString (100 + n)
    putOutcome := fun _ => none }

/-- Concrete witness for claim C6: a 50-post fetch with a strictly
increasing clock satisfies the hypotheses, so the conclusion holds there. -/
theorem claim_C6_witness :
    envC6.posts.length = 50 ∧
    (∀ j, j < envC6.posts.length → ∀ i, i < j → envC6.clock i < envC6.clock j) ∧
    ((processPosts envC6.posts 0 envC6.polarity envC6.clock).1.length = 50 ∧
     (∀ it ∈ (processPosts envC6.posts 0 envC6.polarity envC6.clock).1,
       it.SubredditName = SUBREDDIT_NAME) ∧
     (∀ (i : Nat) (hi : i < (processPosts envC6.posts 0 envC6.polarity envC6.clock).1.length),
       ((processPosts envC6.posts 0 envC6.polarity envC6.clock).1.get ⟨i, hi⟩).Timestamp
         = envC6.clock i) ∧
     (∀ (i j : Nat) (hi : i < (processPosts envC6.posts 0 envC6.polarity envC6.clock).1.length)
       (hj : j < (processPosts envC6.posts 0 envC6.polarity envC6.clock).1.length), i < j →
       ((processPosts envC6.posts 0 envC6.polarity envC6.clock).1.get ⟨i, hi⟩).Timestamp
           < ((processPosts envC6.posts 0 envC6.polarity envC6.clock).1.get ⟨j, hj⟩).Timestamp ∧
         ((processPosts envC6.posts 0 envC6.polarity envC6.clock).1.get ⟨i, hi⟩).Timestamp
           ≠ ((processPosts envC6.posts 0 envC6.polarity envC6.clock).1.get ⟨j, hj⟩).Timestamp)) := by
  have h50 : envC6.posts.length = 50 := rfl
  have hclk : ∀ j, j < envC6.posts.length → ∀ i, i < j → envC6.clock i < envC6.clock j := by
    have h : ∀ j, j < 50 → ∀ i, i < j →
        (toString (100 + i)).toList < (toString (100 + j)).toList := by decide
    intro j hj i hij
    rw [String.lt_iff_toList_lt]
    exact h j (h50 ▸ hj) i hij
  exact ⟨h50, hclk, claim_C6_fifty_records envC6 h50 hclk⟩

/-- The double closest to 0.1 (value 3602879701896397/2^55) with its Python
string form `"0.1"`. -/
def floatPointOne : PyFloat := { binVal := mkRat 3602879701896397 36028797018963968, repr := "0.1" }

def postW : Post := { id := "p1", title := "good title" }

/-- The record as the Result Builder constructs it for `postW`. -/
def builtW : Item := buildItem SUBREDDIT_NAME "2026-01-01T00:00:00" postW floatPointOne

/-- The same record as it exists after the Batch Persister's loop: its
SentimentScore has been re-assigned in place to the exact decimal 1/10. -/
def persistedW : Item := { builtW with SentimentScore := ScoreAttr.dec (mkRat 1 10) }

/-- Claim C7 as stated is false on the code: at this concrete input the
list held after the Batch Persister's loop is not the list of records as
built — line 80 re-assigns the `SentimentScore` key of the already-built
dict before each put. -/
theorem claim_C7_counterexample :
    (persistItems (fun _ => none) [builtW] 0).1 ≠ Except.ok [builtW] := by
  intro hcontra
  have heval : (persistItems (fun _ => none) [builtW] 0).1 = Except.ok [persistedW] := rfl
  rw [heval] at hcontra
  simp only [Except.ok.injEq, List.cons.injEq, and_true] at hcontra
  have hscore : persistedW.SentimentScore = builtW.SentimentScore :=
    congrArg Item.SentimentScore hcontra
  exact absurd hscore (by decide)

/-- Claim C7 (amended): records are NOT left untouched after building — the
Batch Persister updates each record's `SentimentScore` in place, replacing
the float by `Decimal(str(score))` just before the write — but that is the
only mutation: every other field (SubredditName, Timestamp, PostID, Title,
SentimentLabel) of every record is unchanged by all later stages. -/
theorem claim_C7_amended_only_score_mutated (po : Nat → Option String)
    (items : List Item) (i0 : Nat) (out : List Item) (tr : List Effect)
    (h : persistItems po items i0 = (Except.ok out, tr)) :
    out.length = items.length ∧
    ∀ (i : Nat) (hi : i < items.length) (hi2 : i < out.length),
      ((out.get ⟨i, hi2⟩).SubredditName = (items.get ⟨i, hi⟩).SubredditName ∧
       (out.get ⟨i, hi2⟩).Timestamp = (items.get ⟨i, hi⟩).Timestamp ∧
       (out.get ⟨i, hi2⟩).PostID = (items.get ⟨i, hi⟩).PostID ∧
       (out.get ⟨i, hi2⟩).Title = (items.get ⟨i, hi⟩).Title ∧
       (out.get ⟨i, hi2⟩).SentimentLabel = (items.get ⟨i, hi⟩).SentimentLabel) ∧
      convertScore ((items.get ⟨i, hi⟩).SentimentScore)
        = Except.ok ((out.get ⟨i, hi2⟩).SentimentScore) := by
  obtain ⟨hlen, hget⟩ := persistItems_ok po items i0 out tr h
  refine ⟨hlen, ?_⟩
  intro i hi hi2
  obtain ⟨sc, hsc, hout⟩ := hget i hi hi2
  rw [hout]
  exact ⟨⟨rfl, rfl, rfl, rfl, rfl⟩, hsc⟩

/-- Concrete witness for the amended claim C7, at the same input as the
counterexample: the persist succeeds, the stored record differs from the
built one exactly in its SentimentScore. -/
theorem claim_C7_amended_witness :
    persistItems (fun _ => none) [builtW] 0
      = (Except.ok [persistedW], [Effect.putItem persistedW]) ∧
    ([persistedW].length = [builtW].length ∧
     ∀ (i : Nat) (hi : i < [builtW].length) (hi2 : i < [persistedW].length),
       (([persistedW].get ⟨i, hi2⟩).SubredditName = ([builtW].get ⟨i, hi⟩).SubredditName ∧
        ([persistedW].get ⟨i, hi2⟩).Timestamp = ([builtW].get ⟨i, hi⟩).Timestamp ∧
        ([persistedW].get ⟨i, hi2⟩).PostID = ([builtW].get ⟨i, hi⟩).PostID ∧
        ([persistedW].get ⟨i, hi2⟩).Title = ([builtW].get ⟨i, hi⟩).Title ∧
        ([persistedW].get ⟨i, hi2⟩).SentimentLabel = ([builtW].get ⟨i, hi⟩).SentimentLabel) ∧
       convertScore (([builtW].get ⟨i, hi⟩).SentimentScore)
         = Except.ok (([persistedW].get ⟨i, hi2⟩).SentimentScore)) :=
  ⟨rfl, claim_C7_amended_only_score_mutated (fun _ => none) [builtW] 0 [persistedW]
    [Effect.putItem persistedW] rfl⟩

/-! ## Concrete witnesses -/

/-- A one-post environment in which every collaborator succeeds. -/
def envW : Env :=
  { secretResult := Except.ok (Except.ok (Json.obj
      [("client_id", Json.str "a"), ("client_secret", Json.str "b")]))
    posts := [postW]
    polarity := fun _ => floatPointOne
    clock := fun _ => "2026-01-01T00:00:00"
    putOutcome := fun _ => none }

/-- Witness for claim C2: on a successful one-post run whose score prints
as `"0.1"`, the stored score is the exact decimal 1/10 — and 1/10 differs
from the float's binary value, so this is not the direct cast. -/
theorem claim_C2_witness :
    persistItems envW.putOutcome (processPosts envW.posts 0 envW.polarity envW.clock).1 0
      = (Except.ok [persistedW], [Effect.putItem persistedW]) ∧
    ([persistedW].length = envW.posts.length ∧
     ∀ (i : Nat) (hi : i < envW.posts.length) (hi2 : i < [persistedW].length),
       ∃ q : ℚ,
         parseDecimal ((envW.polarity ((envW.posts.get ⟨i, hi⟩).title)).repr) = some q ∧
         ([persistedW].get ⟨i, hi2⟩).SentimentScore = ScoreAttr.dec q) ∧
    parseDecimal floatPointOne.repr = some (mkRat 1 10) ∧
    mkRat 1 10 ≠ pyDecimalOfFloatDirect floatPointOne :=
  ⟨rfl,
   claim_C2_score_stored_via_string envW [persistedW] [Effect.putItem persistedW] rfl,
   by decide, by decide⟩

/-- Witness for claim C8: the success response of the one-post run. -/
theorem claim_C8_witness :
    lambda_handler () () envW =
      (Except.ok { statusCode := 200, body := successBody 1 },
       [Effect.getSecretValue SECRET_NAME, Effect.fetchPosts SUBREDDIT_NAME LIMIT_POSTS,
        Effect.log "Posts procesados y listos para carga: 1",
        Effect.putItem persistedW,
        Effect.log "Carga exitosa a DynamoDB: 1 elementos."]) ∧
    (({ statusCode := 200, body := successBody 1 } : Response).statusCode = 200 ∧
     ({ statusCode := 200, body := successBody 1 } : Response).body
       = successBody envW.posts.length ∧
     successBody envW.posts.length =
       "\x7b\"posts_count\": " ++ toString envW.posts.length ++ ", \"status\": \""
         ++ SUCCESS_STATUS ++ "\"\x7d") :=
  ⟨rfl, claim_C8_success_response_shape envW () () { statusCode := 200, body := successBody 1 }
    [Effect.getSecretValue SECRET_NAME, Effect.fetchPosts SUBREDDIT_NAME LIMIT_POSTS,
     Effect.log "Posts procesados y listos para carga: 1",
     Effect.putItem persistedW,
     Effect.log "Carga exitosa a DynamoDB: 1 elementos."] rfl⟩

/-- An environment in which the secret store fails with a client error. -/
def envC4 : Env :=
  { secretResult := Except.error "AccessDenied"
    posts := [postW]
    polarity := fun _ => floatPointOne
    clock := fun _ => "2026-01-01T00:00:00"
    putOutcome := fun _ => none }

/-- Witness for claim C4: a failing secret store aborts the invocation with
the logged, re-raised client error and no fetch or write in the trace. -/
theorem claim_C4_witness :
    envC4.secretResult = Except.error "AccessDenied" ∧
    (lambda_handler () () envC4 =
      (Except.error (PyError.clientError "AccessDenied"),
       [Effect.getSecretValue SECRET_NAME,
        Effect.log ("Error: No se pudo obtener el secreto " ++ SECRET_NAME ++ ".")]) ∧
     (∀ sub lim, Effect.fetchPosts sub lim ∉ (lambda_handler () () envC4).2) ∧
     (∀ it, Effect.putItem it ∉ (lambda_handler () () envC4).2)) :=
  ⟨rfl, claim_C4_secret_failure_aborts envC4 () () "AccessDenied" rfl⟩

/-- An environment whose secret payload is a JSON object without the
`client_id` key. -/
def envC10 : Env :=
  { secretResult := Except.ok (Except.ok (Json.obj [("client_secret", Json.str "x")]))
    posts := [postW]
    polarity := fun _ => floatPointOne
    clock := fun _ => "2026-01-01T00:00:00"
    putOutcome := fun _ => none }

/-- Witness for claim C10: the secret parses but lacks `client_id`, so a
`KeyError` escapes right after the successful secret fetch. -/
theorem claim_C10_witness :
    envC10.secretResult
      = Except.ok (Except.ok (Json.obj [("client_secret", Json.str "x")])) ∧
    ([(("client_secret" : String), Json.str "x")].lookup "client_id" = none ∨
     [(("client_secret" : String), Json.str "x")].lookup "client_secret" = none) ∧
    (((lambda_handler () () envC10).1 = Except.error (PyError.keyError "client_id") ∨
      (lambda_handler () () envC10).1 = Except.error (PyError.keyError "client_secret")) ∧
     (lambda_handler () () envC10).2 = [Effect.getSecretValue SECRET_NAME]) :=
  ⟨rfl, Or.inl rfl,
   claim_C10_missing_credential_key envC10 () () [("client_secret", Json.str "x")] rfl
     (Or.inl rfl)⟩

/-- A successful environment whose fetch yields no posts. -/
def envC5 : Env :=
  { secretResult := Except.ok (Except.ok (Json.obj
      [("client_id", Json.str "a"), ("client_secret", Json.str "b")]))
    posts := []
    polarity := fun _ => floatPointOne
    clock := fun _ => "2026-01-01T00:00:00"
    putOutcome := fun _ => none }

/-- Witness for claim C5: zero posts give an empty batch and a
`posts_count: 0` success response. -/
theorem claim_C5_witness :
    envC5.secretResult = Except.ok (Except.ok (Json.obj
      [("client_id", Json.str "a"), ("client_secret", Json.str "b")])) ∧
    [(("client_id" : String), Json.str "a"),
     ("client_secret", Json.str "b")].lookup "client_id" = some (Json.str "a") ∧
    [(("client_id" : String), Json.str "a"),
     ("client_secret", Json.str "b")].lookup "client_secret" = some (Json.str "b") ∧
    envC5.posts = [] ∧
    (lambda_handler () () envC5 =
      (Except.ok { statusCode := 200, body := successBody 0 },
       [Effect.getSecretValue SECRET_NAME,
        Effect.fetchPosts SUBREDDIT_NAME LIMIT_POSTS,
        Effect.log ("Carga exitosa a DynamoDB: " ++ toString 0 ++ " elementos.")]) ∧
     (∀ it, Effect.putItem it ∉ (lambda_handler () () envC5).2)) :=
  ⟨rfl, rfl, rfl, rfl,
   claim_C5_zero_posts envC5 () () [("client_id", Json.str "a"), ("client_secret", Json.str "b")]
     (Json.str "a") (Json.str "b") rfl rfl rfl rfl⟩

/-- A one-post environment whose table store fails the first put. -/
def envC3 : Env :=
  { secretResult := Except.ok (Except.ok (Json.obj
      [("client_id", Json.str "a"), ("client_secret", Json.str "b")]))
    posts := [postW]
    polarity := fun _ => floatPointOne
    clock := fun _ => "2026-01-01T00:00:00"
    putOutcome := fun _ => some "ProvisionedThroughputExceeded" }

/-- Witness for claim C3: a failing batch write is logged and re-raised and
the handler never returns a success response. -/
theorem claim_C3_witness :
    envC3.secretResult = Except.ok (Except.ok (Json.obj
      [("client_id", Json.str "a"), ("client_secret", Json.str "b")])) ∧
    persistItems envC3.putOutcome (processPosts envC3.posts 0 envC3.polarity envC3.clock).1 0
      = (Except.error (PyError.clientError "ProvisionedThroughputExceeded"),
         [Effect.putItem persistedW]) ∧
    (lambda_handler () () envC3 =
      (Except.error (PyError.clientError "ProvisionedThroughputExceeded"),
       [Effect.getSecretValue SECRET_NAME, Effect.fetchPosts SUBREDDIT_NAME LIMIT_POSTS]
         ++ (processPosts envC3.posts 0 envC3.polarity envC3.clock).2
         ++ [Effect.putItem persistedW]
         ++ [Effect.log ("ERROR: Fallo al escribir en DynamoDB. "
              ++ "ProvisionedThroughputExceeded")]) ∧
     (∀ (resp : Response) (tr : List Effect),
       lambda_handler () () envC3 ≠ (Except.ok resp, tr))) :=
  ⟨rfl, rfl,
   claim_C3_persistence_failure envC3 () ()
     [("client_id", Json.str "a"), ("client_secret", Json.str "b")]
     (Json.str "a") (Json.str "b") "ProvisionedThroughputExceeded"
     [Effect.putItem persistedW] rfl rfl rfl rfl⟩

/-- Witness for claim C9: two invocations at concrete, differently typed
event/context values coincide on the one-post environment. -/
theorem claim_C9_witness :
    lambda_handler (0 : Nat) "a-context" envW = lambda_handler "b-event" (1 : Nat) envW :=
  claim_C9_event_context_unused (0 : Nat) "a-context" "b-event" (1 : Nat) envW
